import Mathlib

/-!
Formal model of the slack client library's streaming multipart upload
pipeline (`file.go`) and of the channel wrappers (`channel.go`), with
theorems about the behaviour of `doUpload`, `Upload`, `Mark` and
`ChannelCreate`.

The Go code is embedded shallowly: the producer goroutine that encodes the
multipart body becomes a pure function returning both the bytes it wrote to
the pipe and an explicit event trace (pipe close, error-channel send, part
writes); the outcomes of the external effects (HTTP transport, JSON
decoding, failures of the underlying writes) are inputs of the model.
-/

namespace Slack

/-- Error values flowing through the client, tagged by their origin
(`fmt.Errorf` validation failures, producer-side encoding failures,
transport failures of `s.c.Do`, non-2xx statuses from `handleError`,
JSON decode failures, and not-ok envelopes returned as `sm`). In the Go
source all of these inhabit the untyped `error` interface. -/
inductive SlackErr where
  | validation (msg : String)
  | encoding (msg : String)
  | transport (msg : String)
  | httpStatus (code : Nat)
  | decode (msg : String)
  | service (msg : String)
deriving DecidableEq

/-- A logical part of a multipart/form-data document: either a file part
(form name, filename, content bytes) or a plain form-field part. -/
inductive Part where
  | file (name filename content : String)
  | field (name value : String)
deriving DecidableEq

/-- Escaping performed by Go `mime/multipart` on names and filenames in
`Content-Disposition` headers: backslash and double quote are preceded by a
backslash (`quoteEscaper`). -/
def escChar (c : Char) : List Char :=
  if c = '\\' ∨ c = '"' then ['\\', c] else [c]

/-- Escape a whole string as Go `mime/multipart.escapeQuotes` does. -/
def escapeQuotes (s : String) : String :=
  String.mk (s.data.flatMap escChar)

/-- Header block written by Go `mime/multipart` for a part: file parts get a
`Content-Disposition` naming the form field and the filename plus an
`application/octet-stream` content type (`CreateFormFile`); field parts get
only the `Content-Disposition` (`WriteField` via `CreateFormField`). Each
header line ends in CRLF. -/
def partHeader : Part → String
  | Part.file name filename _ =>
      "Content-Disposition: form-data; name=\"" ++ escapeQuotes name ++
        "\"; filename=\"" ++ escapeQuotes filename ++ "\"\r\n" ++
        "Content-Type: application/octet-stream\r\n"
  | Part.field name _ =>
      "Content-Disposition: form-data; name=\"" ++ escapeQuotes name ++ "\"\r\n"

/-- Payload bytes of a part. -/
def partContent : Part → String
  | Part.file _ _ content => content
  | Part.field _ value => value

/-- Rendering of one part inside a multipart document with boundary `b`:
dash-dash boundary line, headers, blank line, content. -/
def partBlock (b : String) (p : Part) : String :=
  "--" ++ b ++ "\r\n" ++ partHeader p ++ "\r\n" ++ partContent p

/-- Rendering of every part after the first: each is preceded by the CRLF
that terminates the previous part's content. -/
def renderTail (b : String) : List Part → String
  | [] => ""
  | p :: ps => "\r\n" ++ partBlock b p ++ renderTail b ps

/-- Terminal boundary written by `multipart.Writer.Close`. -/
def closingBoundary (b : String) : String :=
  "\r\n--" ++ b ++ "--\r\n"

/-- A syntactically complete multipart/form-data document with boundary `b`
and the given sequence of parts: the reference rendering against which the
producer's byte output is compared. -/
def render (b : String) : List Part → String
  | [] => closingBoundary b
  | p :: ps => partBlock b p ++ renderTail b ps ++ closingBoundary b

/-- State of Go's `multipart.Writer` wrapping the pipe's write end: the
boundary, the bytes written to the pipe so far, and whether a part has
already been opened (Go's `w.lastpart != nil`), which decides whether the
next boundary line is preceded by the CRLF closing the previous part. -/
structure MWriter where
  boundary : String
  out : String
  hasPart : Bool
deriving DecidableEq

/-- Go `multipart.Writer.CreatePart`: write (CRLF if a part was already
open) `--boundary` CRLF, the header block, and the blank line. -/
def createPart (w : MWriter) (header : String) : MWriter :=
  { w with
    out := w.out ++ (if w.hasPart then "\r\n" else "") ++ "--" ++ w.boundary
        ++ "\r\n" ++ header ++ "\r\n"
    hasPart := true }

/-- Go `multipart.Writer.CreateFormFile(fieldname, filename)`. -/
def createFormFile (w : MWriter) (fieldname filename : String) : MWriter :=
  createPart w (partHeader (Part.file fieldname filename ""))

/-- Writing payload bytes into the current part (`io.Copy(part, data)` or
the value written by `WriteField`). -/
def writeContent (w : MWriter) (s : String) : MWriter :=
  { w with out := w.out ++ s }

/-- Go `multipart.Writer.WriteField(k, v)`: open a form-field part and write
the value. -/
def writeField (w : MWriter) (k v : String) : MWriter :=
  writeContent (createPart w (partHeader (Part.field k v))) v

/-- Go `multipart.Writer.Close`: write the terminal boundary. -/
def closeW (w : MWriter) : MWriter :=
  { w with out := w.out ++ closingBoundary w.boundary }

/-- Events of the producer goroutine, in program order: opening the file
part, copying the stream, writing a form field, closing the multipart
writer, sending a value on `errChan` (`none` models a nil error), and
closing the pipe's write end (the deferred `bodyWriter.Close()`). -/
inductive PEv where
  | createFile
  | copyData
  | writeFieldEv (name : String)
  | closeWriterEv
  | send (e : Option SlackErr)
  | closePipe
deriving DecidableEq

/-- Outcomes of the fallible operations inside the producer goroutine,
supplied as inputs of the model: failure of `CreateFormFile`, of
`io.Copy`, of each `WriteField` (positionally), and of `writer.Close()`.
`none` everywhere models the success path. -/
structure Faults where
  createErr : Option SlackErr
  copyErr : Option SlackErr
  fieldErrs : List (Option SlackErr)
  closeErr : Option SlackErr
deriving DecidableEq

/-- The all-successful outcome assignment. -/
def noFaults : Faults := ⟨none, none, [], none⟩

/-- The `for k, v := range params` loop of the producer: write each field
with `writer.WriteField(k, v[0])`, returning at the first failing write
(mirroring the `return` after `errChan <- err`). Returns the writer, the
events emitted, and the error of the failing iteration, if any. -/
def writeFieldsLoop :
    List (String × List String) → List (Option SlackErr) → MWriter →
      MWriter × List PEv × Option SlackErr
  | [], _, w => (w, [], none)
  | kv :: rest, ferrs, w =>
    match ferrs.headD none with
    | some e => (w, [PEv.writeFieldEv kv.1], some e)
    | none =>
      match writeFieldsLoop rest ferrs.tail (writeField w kv.1 (kv.2.headD "")) with
      | (w2, evs, r) => (w2, PEv.writeFieldEv kv.1 :: evs, r)

/-- Body of the producer goroutine of `doUpload` (file.go lines 125-143),
minus the deferred pipe close: `CreateFormFile("file", filename)`, then
`io.Copy(part, data)`, then the `WriteField` loop, then
`errChan <- writer.Close()`; each failure is sent on `errChan` followed by
an immediate return. Returns the writer state and the event trace. -/
def goroutineBody (w0 : MWriter) (filename data : String)
    (params : List (String × List String)) (f : Faults) : MWriter × List PEv :=
  match f.createErr with
  | some e => (w0, [PEv.createFile, PEv.send (some e)])
  | none =>
    match f.copyErr with
    | some e =>
        (writeContent (createFormFile w0 "file" filename) "",
         [PEv.createFile, PEv.copyData, PEv.send (some e)])
    | none =>
      match writeFieldsLoop params f.fieldErrs
          (writeContent (createFormFile w0 "file" filename) data) with
      | (w3, evs, some e) =>
          (w3, PEv.createFile :: PEv.copyData :: evs ++ [PEv.send (some e)])
      | (w3, evs, none) =>
          (closeW w3,
           PEv.createFile :: PEv.copyData :: evs
             ++ [PEv.closeWriterEv, PEv.send f.closeErr])

/-- The producer goroutine launched by `doUpload` with a fresh
`multipart.Writer` over the pipe: its full event trace (the deferred
`bodyWriter.Close()` appends the final pipe-close event on every path) and
the bytes it wrote to the pipe. -/
def producerGo (b filename data : String)
    (params : List (String × List String)) (f : Faults) : List PEv × String :=
  ((goroutineBody ⟨b, "", false⟩ filename data params f).2 ++ [PEv.closePipe],
   (goroutineBody ⟨b, "", false⟩ filename data params f).1.out)

/-- The form-field part written for one `params` entry: only `v[0]` is
used by the loop in `doUpload`. -/
def fieldPartOf (kv : String × List String) : Part :=
  Part.field kv.1 (kv.2.headD "")

/-- The sequence of parts the producer writes on the success path: the file
part named "file", then one field part per `params` entry. -/
def partsWritten (filename data : String)
    (params : List (String × List String)) : List Part :=
  Part.file "file" filename data :: params.map fieldPartOf

/-- Whether a part is a file part. -/
def isFilePart : Part → Bool
  | Part.file _ _ _ => true
  | Part.field _ _ => false

/-- Form name of a part. -/
def partFormName : Part → String
  | Part.file n _ _ => n
  | Part.field n _ => n

/-- Whether an event writes into the pipe through the multipart writer. -/
def isWriteEv : PEv → Bool
  | PEv.createFile => true
  | PEv.copyData => true
  | PEv.writeFieldEv _ => true
  | PEv.closeWriterEv => true
  | _ => false

/-- The value carried by an error-channel send event, if the event is one. -/
def sendPayload : PEv → Option (Option SlackErr)
  | PEv.send e => some e
  | _ => none

/-- Modelled from the spec: the `Reaction` type is declared outside src/
(referenced by `Comment` and `File`); per the spec it is part of the file
metadata ("reactions"), a named reaction with its count and reacting
users. -/
structure Reaction where
  name : String
  count : Nat
  users : List String
deriving DecidableEq

/-- Comment holds information about a file comment (file.go). -/
structure Comment where
  id : String
  timestamp : Int
  user : String
  comment : String
  created : Int
  reactions : List Reaction
deriving DecidableEq

/-- File holds information about a file (file.go). -/
structure File where
  id : String
  created : Int
  name : String
  title : String
  mimetype : String
  filetype : String
  prettyType : String
  userID : String
  mode : String
  editable : Bool
  isExternal : Bool
  externalType : String
  size : Int
  url : String
  urlDownload : String
  urlPrivate : String
  urlPrivateDownload : String
  thumb64 : String
  thumb80 : String
  thumb360 : String
  thumb360Gif : String
  thumb360W : Int
  thumb360H : Int
  permalink : String
  editLink : String
  preview : String
  previewHighlight : String
  lines : Int
  linesMore : Int
  isPublic : Bool
  publicURLShared : Bool
  channels : List String
  groups : List String
  initialComment : Comment
  numStars : Int
  isStarred : Bool
  reactions : List Reaction
deriving DecidableEq

/-- Modelled from the spec: the `slackResponse` envelope type is declared
outside src/; per the spec it is "the generic response envelope (ok flag +
error string)", and the `Response` interface it implements exposes an
"is this response an error" predicate (`IsOK`, the ok flag) and an error
message (the error string). -/
structure slackResponse where
  ok : Bool
  error : String
deriving DecidableEq

/-- FileUploadResponse is the response to the file upload command
(file.go): the embedded `slackResponse` envelope plus the file metadata. -/
structure FileUploadResponse where
  resp : slackResponse
  file : File
deriving DecidableEq

/-- ChannelTopicPurpose holds the topic or purpose of a channel
(channel.go). -/
structure ChannelTopicPurpose where
  value : String
  creator : String
  lastSet : Int
deriving DecidableEq

/-- Modelled from the spec: the `Message` type is declared outside src/
(referenced by `BaseChannel.latest`); the spec treats message schema as
out-of-scope glue, so it is modelled as the latest message's user, text and
timestamp. -/
structure Message where
  user : String
  text : String
  ts : String
deriving DecidableEq

/-- BaseChannel holds information about channel / group / IM
(channel.go). -/
structure BaseChannel where
  id : String
  name : String
  created : Int
  creator : String
  isArchived : Bool
  isOpen : Bool
  members : List String
  topic : ChannelTopicPurpose
  purpose : ChannelTopicPurpose
  lastRead : String
  latest : Message
  unreadCount : Int
  unreadCountDisplay : Int
  numMembers : Int
deriving DecidableEq

/-- Channel holds information about the channel (channel.go). -/
structure Channel where
  base : BaseChannel
  isGeneral : Bool
  isChannel : Bool
  isMember : Bool
deriving DecidableEq

/-- ChannelResponse holds a response to a channel request (channel.go). -/
structure ChannelResponse where
  resp : slackResponse
  channel : Channel
deriving DecidableEq

/-- Decoded outcome of the HTTP exchange performed by `s.c.Do`: the response
status and the JSON-decoding outcome of the response body (`.error` models
a `json.Decoder.Decode` failure). -/
structure HttpResp (α : Type) where
  status : Nat
  body : Except String α

/-- Modelled from the spec: `handleError` is declared outside src/; per the
doc comment of `doUpload` ("Returns the response if the status code is
between 200 and 299") and the spec's error taxonomy, it passes 2xx
responses through and turns any other status into an error. -/
def handleError (status : Nat) : Option SlackErr :=
  if 200 ≤ status ∧ status ≤ 299 then none else some (SlackErr.httpStatus status)

/-- Result computation of `doUpload` (file.go lines 146-184) over the
outcomes of its effects: `newReqErr` is the outcome of `http.NewRequest`
(returned at once when non-nil, before the error channel is read);
`producerErr` is the value received from `errChan` right after `s.c.Do`
returns, returned when non-nil; then a transport error of `Do` itself is
returned; then `handleError` rejects non-2xx statuses; then the body is
decoded and, when the decoded envelope is not ok (`!sm.IsOK()`), the
envelope is returned as the error (`return sm`), modelled as a service
error carrying the envelope's message. `isOK` and `errMsg` model the
`Response` interface of the decoded result. -/
def doUpload {α : Type} (isOK : α → Bool) (errMsg : α → String)
    (newReqErr producerErr : Option SlackErr)
    (transport : Except SlackErr (HttpResp α)) : Except SlackErr α :=
  match newReqErr with
  | some e => Except.error e
  | none =>
    match producerErr with
    | some cerr => Except.error cerr
    | none =>
      match transport with
      | Except.error e => Except.error e
      | Except.ok resp =>
        match handleError resp.status with
        | some e => Except.error e
        | none =>
          match resp.body with
          | Except.error m => Except.error (SlackErr.decode m)
          | Except.ok sm =>
            if isOK sm then Except.ok sm
            else Except.error (SlackErr.service (errMsg sm))

/-- Modelled from the spec: the helper `appendNotEmpty` is declared outside
src/; per its name, the spec's treatment of the scalar fields as optional
(§3: "a set of named string form fields", "an optional list of destination
identifiers"), and the analogous in-src guard on `channels`
(`if len(channels) > 0`), it adds the named form field only when the value
is non-empty. -/
def appendNotEmpty (name value : String)
    (params : List (String × List String)) : List (String × List String) :=
  if value = "" then params else params ++ [(name, [value])]

/-- Form parameters built by `Upload` (file.go lines 192-199): title,
filetype, filename and initial_comment when non-empty, and the channel list
joined with commas when non-empty. -/
def uploadParams (title filetype filename initialComment : String)
    (channels : List String) : List (String × List String) :=
  if channels.length > 0 then
    appendNotEmpty "initial_comment" initialComment
        (appendNotEmpty "filename" filename
          (appendNotEmpty "filetype" filetype
            (appendNotEmpty "title" title [])))
      ++ [("channels", [String.intercalate "," channels])]
  else
    appendNotEmpty "initial_comment" initialComment
      (appendNotEmpty "filename" filename
        (appendNotEmpty "filetype" filetype
          (appendNotEmpty "title" title [])))

/-- Token injection performed at the top of `doUpload` (file.go line 111):
`appendNotEmpty("token", s.token, params)`. -/
def doUploadParams (token : String)
    (params : List (String × List String)) : List (String × List String) :=
  appendNotEmpty "token" token params

/-- Outcomes of the external effects of one `doUpload` execution. -/
structure UploadWorld where
  newReqErr : Option SlackErr
  producerErr : Option SlackErr
  transport : Except SlackErr (HttpResp FileUploadResponse)

/-- `Upload` (file.go lines 188-206): reject an empty filename with the
validation error before any request is built, otherwise run `doUpload` on
`files.upload` and return either the response pointer or the error. The
third component counts the HTTP transport invocations (`s.c.Do` calls):
zero when the call is rejected locally or `http.NewRequest` failed, one
otherwise. -/
def Upload (title filetype filename initialComment : String)
    (channels : List String) (token : String) (world : UploadWorld) :
    Option FileUploadResponse × Option SlackErr × Nat :=
  if filename = "" then
    (none, some (SlackErr.validation "You must specify the filename for the upload"), 0)
  else
    match doUpload (fun r => r.resp.ok) (fun r => r.resp.error)
        world.newReqErr world.producerErr world.transport with
    | Except.error e =>
        (none, some e, if world.newReqErr.isSome then 0 else 1)
    | Except.ok r =>
        (some r, none, if world.newReqErr.isSome then 0 else 1)

/-- `ChannelCreate` (channel.go lines 90-98): issue `channels.create` with
the name parameter through the generic dispatcher (whose outcome, decode
included, is the input `doReq`, modelled from the spec as "perform named
API call with form parameters, decode typed result, report ok/error"), and
return either the response pointer or the error. -/
def ChannelCreate (name : String)
    (doReq : String → List (String × List String) →
      Except SlackErr ChannelResponse) :
    Option ChannelResponse × Option SlackErr :=
  match doReq "channels.create" [("name", [name])] with
  | Except.error e => (none, some e)
  | Except.ok r => (some r, none)

/-- Result of a `Mark` call: a run-time panic, a completed call, or a
returned error. -/
inductive MarkResult where
  | panicked (msg : String)
  | completed (path : String)
  | failed (e : SlackErr)
deriving DecidableEq

/-- Go string slicing `s[lo:hi]`: defined when `lo ≤ hi ≤ len(s)`, a
run-time panic (`none`) otherwise. -/
def goStringSlice (s : String) (lo hi : Nat) : Option String :=
  if lo ≤ hi ∧ hi ≤ s.length then
    some (String.mk ((s.data.drop lo).take (hi - lo)))
  else none

/-- `Mark` (channel.go lines 126-141): select the API path from the first
character of the channel id via the unguarded slice `channel[0:1]`, then
dispatch through the generic `do` (outcome given by `doReq`, modelled from
the spec). An empty channel makes the slice panic before any request. -/
def Mark (channel ts : String)
    (doReq : String → List (String × List String) → Except SlackErr Unit) :
    MarkResult :=
  match goStringSlice channel 0 1 with
  | none => MarkResult.panicked "slice bounds out of range"
  | some c0 =>
    let path := if c0 = "G" then "groups.mark"
      else if c0 = "D" then "im.mark"
      else "channels.mark"
    match doReq path [("channel", [channel]), ("ts", [ts])] with
    | Except.error e => MarkResult.failed e
    | Except.ok _ => MarkResult.completed path

/-- A concrete file value, used to instantiate witnesses. -/
def sampleFile : File :=
  { id := "F1", created := 0, name := "report.txt", title := "", mimetype := ""
    filetype := "", prettyType := "", userID := "", mode := "", editable := false
    isExternal := false, externalType := "", size := 5, url := ""
    urlDownload := "", urlPrivate := "", urlPrivateDownload := ""
    thumb64 := "", thumb80 := "", thumb360 := "", thumb360Gif := ""
    thumb360W := 0, thumb360H := 0, permalink := "", editLink := ""
    preview := "", previewHighlight := "", lines := 0, linesMore := 0
    isPublic := false, publicURLShared := false, channels := [], groups := []
    initialComment := { id := "", timestamp := 0, user := "", comment := ""
                        created := 0, reactions := [] }
    numStars := 0, isStarred := false, reactions := [] }

/-- A concrete world in which every effect succeeds, used to instantiate
witnesses. -/
def sampleWorld : UploadWorld :=
  { newReqErr := none
    producerErr := none
    transport := Except.ok
      { status := 200
        body := Except.ok { resp := { ok := true, error := "" }, file := sampleFile } } }

/-- A concrete HTTP 200 response whose decoded envelope is not ok and
carries the provider message "not_authed", used to instantiate witnesses. -/
def notAuthedResp : HttpResp FileUploadResponse :=
  { status := 200
    body := Except.ok { resp := { ok := false, error := "not_authed" }, file := sampleFile } }

theorem strAppendAssoc (a b c : String) : a ++ b ++ c = a ++ (b ++ c) := by
  apply String.ext
  simp [List.append_assoc]

theorem writeField_eq (w : MWriter) (hp : w.hasPart = true) (k v : String) :
    writeField w k v =
      ⟨w.boundary, w.out ++ ("\r\n" ++ partBlock w.boundary (Part.field k v)), true⟩ := by
  cases w with
  | mk b o hps =>
    simp only [MWriter.hasPart] at hp
    subst hp
    simp only [writeField, writeContent, createPart, partBlock, partContent,
      MWriter.mk.injEq, if_true, and_true, true_and]
    apply String.ext
    simp [List.append_assoc]

theorem writeFieldsLoop_ok (ps : List (String × List String)) (w : MWriter)
    (hp : w.hasPart = true) :
    writeFieldsLoop ps [] w =
      (⟨w.boundary, w.out ++ renderTail w.boundary (ps.map fieldPartOf), true⟩,
       ps.map (fun kv => PEv.writeFieldEv kv.1), none) := by
  induction ps generalizing w with
  | nil =>
    cases w with
    | mk b o hps =>
      simp only [MWriter.hasPart] at hp
      subst hp
      simp [writeFieldsLoop, renderTail]
  | cons kv rest ih =>
    have hstep := writeField_eq w hp kv.1 (kv.2.headD "")
    have hrec := ih (writeField w kv.1 (kv.2.headD "")) (by rw [hstep])
    rw [hstep] at hrec
    simp only [writeFieldsLoop, List.headD_nil, List.tail_nil, hstep, hrec]
    simp only [renderTail, fieldPartOf, List.map_cons, MWriter.mk.injEq,
      Prod.mk.injEq, true_and, and_true]
    apply String.ext
    simp [List.append_assoc]

theorem writeContent_createFormFile (b fn data : String) :
    writeContent (createFormFile ⟨b, "", false⟩ "file" fn) data =
      ⟨b, partBlock b (Part.file "file" fn data), true⟩ := by
  simp only [writeContent, createFormFile, createPart, partBlock, partHeader,
    partContent, MWriter.mk.injEq, if_false, and_true, true_and, Bool.false_eq_true,
    if_neg, ite_false]
  apply String.ext
  simp [List.append_assoc]

theorem goroutineBody_ok (b fn data : String) (ps : List (String × List String)) :
    goroutineBody ⟨b, "", false⟩ fn data ps noFaults =
      (⟨b, render b (partsWritten fn data ps), true⟩,
       PEv.createFile :: PEv.copyData :: ps.map (fun kv => PEv.writeFieldEv kv.1)
         ++ [PEv.closeWriterEv, PEv.send none]) := by
  have h1 := writeContent_createFormFile b fn data
  have h2 := writeFieldsLoop_ok ps (⟨b, partBlock b (Part.file "file" fn data), true⟩ : MWriter) rfl
  simp only [goroutineBody, noFaults, h1, h2, closeW, render, partsWritten,
    Prod.mk.injEq, MWriter.mk.injEq, true_and, and_true]

theorem producerGo_ok_out (b fn data : String) (ps : List (String × List String)) :
    (producerGo b fn data ps noFaults).2 = render b (partsWritten fn data ps) := by
  simp [producerGo, goroutineBody_ok]

theorem producerGo_ok_trace (b fn data : String) (ps : List (String × List String)) :
    (producerGo b fn data ps noFaults).1 =
      PEv.createFile :: PEv.copyData :: ps.map (fun kv => PEv.writeFieldEv kv.1)
        ++ [PEv.closeWriterEv, PEv.send none, PEv.closePipe] := by
  simp [producerGo, goroutineBody_ok]

theorem writeFieldsLoop_events (ps : List (String × List String))
    (ferrs : List (Option SlackErr)) (w : MWriter) :
    ∀ ev ∈ (writeFieldsLoop ps ferrs w).2.1, ∃ k, ev = PEv.writeFieldEv k := by
  induction ps generalizing ferrs w with
  | nil => simp [writeFieldsLoop]
  | cons kv rest ih =>
    cases h : ferrs.headD none with
    | some e =>
      simp only [writeFieldsLoop, h]
      intro ev hev
      exact ⟨kv.1, List.mem_singleton.mp hev⟩
    | none =>
      have hin := ih ferrs.tail (writeField w kv.1 (kv.2.headD ""))
      cases h2 : writeFieldsLoop rest ferrs.tail (writeField w kv.1 (kv.2.headD "")) with
      | mk w2 t =>
        rw [h2] at hin
        cases t with
        | mk evs r =>
          simp only [writeFieldsLoop, h, h2]
          intro ev hev
          rcases List.mem_cons.mp hev with h3 | h3
          · exact ⟨kv.1, h3⟩
          · exact hin ev h3

theorem goroutineBody_shape (w0 : MWriter) (fn data : String)
    (ps : List (String × List String)) (f : Faults) :
    ∃ pre e, (goroutineBody w0 fn data ps f).2 = pre ++ [PEv.send e] ∧
      ∀ ev ∈ pre, isWriteEv ev = true := by
  cases hc : f.createErr with
  | some e =>
    refine ⟨[PEv.createFile], some e, by simp [goroutineBody, hc], ?_⟩
    simp [isWriteEv]
  | none =>
    cases hcp : f.copyErr with
    | some e =>
      refine ⟨[PEv.createFile, PEv.copyData], some e, by simp [goroutineBody, hc, hcp], ?_⟩
      simp [isWriteEv]
    | none =>
      have hev := writeFieldsLoop_events ps f.fieldErrs
        (writeContent (createFormFile w0 "file" fn) data)
      cases h2 : writeFieldsLoop ps f.fieldErrs
          (writeContent (createFormFile w0 "file" fn) data) with
      | mk w3 t =>
        rw [h2] at hev
        cases t with
        | mk evs r =>
          have hpre : ∀ ev ∈ evs, isWriteEv ev = true := by
            intro ev h3
            obtain ⟨k, hk⟩ := hev ev h3
            subst hk
            rfl
          cases r with
          | some e =>
            refine ⟨PEv.createFile :: PEv.copyData :: evs, some e,
              by simp [goroutineBody, hc, hcp, h2], ?_⟩
            intro ev h3
            rcases List.mem_cons.mp h3 with h4 | h4
            · subst h4; rfl
            rcases List.mem_cons.mp h4 with h5 | h5
            · subst h5; rfl
            · exact hpre ev h5
          | none =>
            refine ⟨PEv.createFile :: PEv.copyData :: evs ++ [PEv.closeWriterEv],
              f.closeErr, by simp [goroutineBody, hc, hcp, h2], ?_⟩
            intro ev h3
            rcases List.mem_cons.mp h3 with h4 | h4
            · subst h4; rfl
            rcases List.mem_cons.mp h4 with h5 | h5
            · subst h5; rfl
            rcases List.mem_append.mp h5 with h6 | h6
            · exact hpre ev h6
            · rcases List.mem_singleton.mp h6 with rfl; rfl

theorem isWriteEv_sendPayload (ev : PEv) (h : isWriteEv ev = true) :
    sendPayload ev = none := by
  cases ev <;> first | rfl | exact absurd h (by simp [isWriteEv])

theorem isWriteEv_ne_closePipe (ev : PEv) (h : isWriteEv ev = true) :
    ev ≠ PEv.closePipe := by
  cases ev <;> simp_all [isWriteEv]

theorem producerGo_trace_eq (b fn data : String) (ps : List (String × List String))
    (f : Faults) (pre : List PEv) (e : Option SlackErr)
    (hsh : (goroutineBody ⟨b, "", false⟩ fn data ps f).2 = pre ++ [PEv.send e]) :
    (producerGo b fn data ps f).1 = pre ++ [PEv.send e, PEv.closePipe] := by
  simp [producerGo, hsh]

theorem fieldParts_no_file (l : List (String × List String)) :
    (l.map fieldPartOf).countP (fun p => isFilePart p) = 0 := by
  induction l with
  | nil => rfl
  | cons kv rest ih => simp [fieldPartOf, isFilePart, List.countP_cons, ih]

theorem fieldParts_filter (l : List (String × List String)) :
    (l.map fieldPartOf).filter (fun p => !isFilePart p) = l.map fieldPartOf := by
  induction l with
  | nil => rfl
  | cons kv rest ih =>
    rw [List.map_cons, List.filter_cons_of_pos (by simp [fieldPartOf, isFilePart]), ih]

/-- C1: whenever the producer goroutine has reported a non-nil encoding
error on the error channel, `doUpload` returns that error to the caller,
whatever the outcome of the HTTP exchange was — in particular even when
`s.c.Do` completed without a transport error. -/
theorem doUpload_encoding_error_priority {α : Type} (isOK : α → Bool)
    (errMsg : α → String) (e : SlackErr)
    (transport : Except SlackErr (HttpResp α)) :
    doUpload isOK errMsg none (some e) transport = Except.error e := rfl

/-- C2: on the success path, for every non-empty filename, stream contents
and field set, the bytes the producer writes into the pipe form a
syntactically complete multipart/form-data document whose part sequence
starts with exactly one file part, named "file", carrying the given
filename and the full stream contents, followed by exactly one form part
per supplied field. -/
theorem producer_body_valid_multipart (b fn data : String)
    (params : List (String × List String)) (h : fn ≠ "") :
    ∃ ps : List Part,
      (producerGo b fn data params noFaults).2 = render b ps ∧
      ps.countP (fun p => isFilePart p) = 1 ∧
      ps.head? = some (Part.file "file" fn data) ∧
      ps.filter (fun p => !isFilePart p) = params.map fieldPartOf := by
  refine ⟨partsWritten fn data params, producerGo_ok_out b fn data params, ?_, rfl, ?_⟩
  · rw [partsWritten, List.countP_cons, fieldParts_no_file]
    rfl
  · rw [partsWritten, List.filter_cons_of_neg (by simp [isFilePart]), fieldParts_filter]

theorem producer_body_valid_multipart_witness :
    (("report.txt" : String) ≠ "") ∧
    ∃ ps : List Part,
      (producerGo "XBOUNDARYX" "report.txt" "hello" [("title", ["T"])] noFaults).2 =
        render "XBOUNDARYX" ps ∧
      ps.countP (fun p => isFilePart p) = 1 ∧
      ps.head? = some (Part.file "file" "report.txt" "hello") ∧
      ps.filter (fun p => !isFilePart p) = [("title", ["T"])].map fieldPartOf :=
  ⟨by decide,
   producer_body_valid_multipart "XBOUNDARYX" "report.txt" "hello"
     [("title", ["T"])] (by decide)⟩

/-- C3: a call to `Upload` with an empty filename returns the validation
error at once, the response pointer is nil, and zero HTTP transport
invocations happen. -/
theorem Upload_empty_filename (title ft fn ic : String) (chs : List String)
    (token : String) (world : UploadWorld) (h : fn = "") :
    Upload title ft fn ic chs token world =
      (none, some (SlackErr.validation "You must specify the filename for the upload"), 0) := by
  subst h
  rfl

theorem Upload_empty_filename_witness :
    ("" : String) = "" ∧
    Upload "title" "txt" "" "note" ["C123"] "tok" sampleWorld =
      (none, some (SlackErr.validation "You must specify the filename for the upload"), 0) :=
  ⟨rfl, Upload_empty_filename "title" "txt" "" "note" ["C123"] "tok" sampleWorld rfl⟩

/-- C4: for every fault assignment the producer terminates (it is a total
function), its trace is some write-only prefix followed by exactly one
error-channel send and the deferred pipe close, nothing but the pipe close
follows the send (so no write happens after the first failure), and the
consumer's single receive from the capacity-1 channel obtains exactly the
one sent value. -/
theorem producer_single_terminal_send (b fn data : String)
    (ps : List (String × List String)) (f : Faults) :
    ∃ pre e, (producerGo b fn data ps f).1 = pre ++ [PEv.send e, PEv.closePipe] ∧
      (∀ ev ∈ pre, sendPayload ev = none) ∧
      (producerGo b fn data ps f).1.filterMap sendPayload = [e] := by
  obtain ⟨pre, e, hsh, hw⟩ := goroutineBody_shape ⟨b, "", false⟩ fn data ps f
  have htr := producerGo_trace_eq b fn data ps f pre e hsh
  have hnone : ∀ ev ∈ pre, sendPayload ev = none :=
    fun ev hmem => isWriteEv_sendPayload ev (hw ev hmem)
  refine ⟨pre, e, htr, hnone, ?_⟩
  rw [htr, List.filterMap_append]
  rw [List.filterMap_eq_nil_iff.mpr hnone]
  rfl

/-- C5 counterexample: the concrete call
`Upload("T", "txt", "report.txt", "note", [], ...)` (empty channel list)
produces a body whose part sequence contains no part named "channels",
refuting the claim that every upload body carries a channels part. -/
theorem Upload_channels_part_missing :
    ¬ ("channels" ∈ (partsWritten "report.txt" "hello"
        (doUploadParams "tok" (uploadParams "T" "txt" "report.txt" "note" []))).map
        partFormName) := by
  decide

/-- C5 (amended): besides the file part, the upload body contains a part
for each of token, title, filetype and initial_comment whose value is
non-empty, always a filename part (the filename is non-empty), and a
channels part holding the comma-joined list exactly when the channel list
is non-empty; empty-valued fields produce no part. -/
theorem upload_body_fields_presence (b data token title ft fn ic : String)
    (chs : List String) (h : fn ≠ "") :
    (producerGo b fn data (doUploadParams token (uploadParams title ft fn ic chs))
        noFaults).2 =
      render b (partsWritten fn data
        (doUploadParams token (uploadParams title ft fn ic chs))) ∧
    doUploadParams token (uploadParams title ft fn ic chs) =
      (if title = "" then [] else [("title", [title])]) ++
      (if ft = "" then [] else [("filetype", [ft])]) ++
      [("filename", [fn])] ++
      (if ic = "" then [] else [("initial_comment", [ic])]) ++
      (if chs.length > 0 then [("channels", [String.intercalate "," chs])] else []) ++
      (if token = "" then [] else [("token", [token])]) := by
  refine ⟨producerGo_ok_out _ _ _ _, ?_⟩
  simp only [uploadParams, doUploadParams, appendNotEmpty]
  split_ifs <;> simp_all

theorem upload_body_fields_presence_witness :
    (("report.txt" : String) ≠ "") ∧
    ((producerGo "B" "report.txt" "hello"
        (doUploadParams "tok" (uploadParams "T" "" "report.txt" "" ["C1", "C2"]))
        noFaults).2 =
      render "B" (partsWritten "report.txt" "hello"
        (doUploadParams "tok" (uploadParams "T" "" "report.txt" "" ["C1", "C2"]))) ∧
    doUploadParams "tok" (uploadParams "T" "" "report.txt" "" ["C1", "C2"]) =
      (if ("T" : String) = "" then [] else [("title", ["T"])]) ++
      (if ("" : String) = "" then [] else [("filetype", [""])]) ++
      [("filename", ["report.txt"])] ++
      (if ("" : String) = "" then [] else [("initial_comment", [""])]) ++
      (if (["C1", "C2"] : List String).length > 0 then
        [("channels", [String.intercalate "," ["C1", "C2"]])] else []) ++
      (if ("tok" : String) = "" then [] else [("token", ["tok"])])) :=
  ⟨by decide,
   upload_body_fields_presence "B" "hello" "tok" "T" "" "report.txt" "" ["C1", "C2"]
     (by decide)⟩

/-- C6: when the HTTP exchange succeeds with a 2xx status and the decoded
envelope has ok=false, `doUpload` returns the envelope as a service error
carrying the provider's message, HTTP status 200 notwithstanding. -/
theorem doUpload_service_error (resp : HttpResp FileUploadResponse)
    (r : FileUploadResponse) (hbody : resp.body = Except.ok r)
    (hok : r.resp.ok = false) (h2 : 200 ≤ resp.status) (h3 : resp.status ≤ 299) :
    doUpload (fun x => x.resp.ok) (fun x => x.resp.error) none none
      (Except.ok resp) = Except.error (SlackErr.service r.resp.error) := by
  simp [doUpload, handleError, hbody, hok, h2, h3]

theorem doUpload_service_error_witness :
    doUpload (fun x => x.resp.ok) (fun x => x.resp.error) none none
      (Except.ok notAuthedResp) = Except.error (SlackErr.service "not_authed") :=
  doUpload_service_error notAuthedResp
    { resp := { ok := false, error := "not_authed" }, file := sampleFile }
    rfl rfl (by decide) (by decide)

/-- C7: on every execution path of the producer the pipe's write end is
closed exactly once (the trace contains exactly one pipe-close event, the
deferred close), and on the success path the multipart writer close
precedes it. -/
theorem producer_pipe_closed_once (b fn data : String)
    (ps : List (String × List String)) (f : Faults) :
    ((producerGo b fn data ps f).1.count PEv.closePipe = 1) ∧
    (f = noFaults → ∃ pre, (producerGo b fn data ps f).1 =
      pre ++ [PEv.closeWriterEv, PEv.send none, PEv.closePipe]) := by
  constructor
  · obtain ⟨pre, e, hsh, hw⟩ := goroutineBody_shape ⟨b, "", false⟩ fn data ps f
    have htr := producerGo_trace_eq b fn data ps f pre e hsh
    rw [htr, List.count_append]
    have h0 : pre.count PEv.closePipe = 0 :=
      List.count_eq_zero.mpr fun hmem => isWriteEv_ne_closePipe _ (hw _ hmem) rfl
    rw [h0]
    rfl
  · intro hf
    subst hf
    refine ⟨PEv.createFile :: PEv.copyData :: ps.map (fun kv => PEv.writeFieldEv kv.1), ?_⟩
    rw [producerGo_ok_trace]

theorem producer_pipe_closed_once_witness :
    ((producerGo "B" "report.txt" "hello" [("title", ["T"])] noFaults).1.count
        PEv.closePipe = 1) ∧
    (∃ pre, (producerGo "B" "report.txt" "hello" [("title", ["T"])] noFaults).1 =
      pre ++ [PEv.closeWriterEv, PEv.send none, PEv.closePipe]) :=
  ⟨(producer_pipe_closed_once "B" "report.txt" "hello" [("title", ["T"])] noFaults).1,
   (producer_pipe_closed_once "B" "report.txt" "hello" [("title", ["T"])] noFaults).2 rfl⟩

/-- C8: calling `Mark` with an empty channel string evaluates the unguarded
slice `channel[0:1]`, which panics with a slice-bounds error instead of
returning an error, for every timestamp and every dispatcher outcome. -/
theorem Mark_empty_channel_panics (ts : String)
    (doReq : String → List (String × List String) → Except SlackErr Unit) :
    Mark "" ts doReq = MarkResult.panicked "slice bounds out of range" := rfl

/-- C9: the field loop of `doUpload` writes only `v[0]` for each key: the
producer's whole behaviour (bytes and trace, under every fault assignment)
is unchanged when the extra values of a key are dropped, and the part
written for a key is the form part carrying the first value. -/
theorem doUpload_writes_only_first_value (b fn data k v : String)
    (vs : List String) (rest : List (String × List String)) (f : Faults) :
    producerGo b fn data ((k, v :: vs) :: rest) f =
      producerGo b fn data ((k, [v]) :: rest) f ∧
    fieldPartOf (k, v :: vs) = Part.field k v := ⟨rfl, rfl⟩

/-- C10: the public wrappers return exactly one of (typed response pointer,
error): for `Upload` and `ChannelCreate`, the pointer is nil exactly when
the error is non-nil. -/
theorem wrappers_result_error_exclusive (title ft fn ic token name : String)
    (chs : List String) (world : UploadWorld)
    (doReq : String → List (String × List String) → Except SlackErr ChannelResponse) :
    (((Upload title ft fn ic chs token world).1.isSome = true ∧
        (Upload title ft fn ic chs token world).2.1 = none) ∨
      ((Upload title ft fn ic chs token world).1 = none ∧
        (Upload title ft fn ic chs token world).2.1.isSome = true)) ∧
    (((ChannelCreate name doReq).1.isSome = true ∧
        (ChannelCreate name doReq).2 = none) ∨
      ((ChannelCreate name doReq).1 = none ∧
        (ChannelCreate name doReq).2.isSome = true)) := by
  constructor
  · by_cases h : fn = ""
    · subst h
      right
      simp [Upload]
    · cases hdo : doUpload (fun r => r.resp.ok) (fun r => r.resp.error)
          world.newReqErr world.producerErr world.transport with
      | error e =>
        right
        simp [Upload, h, hdo]
      | ok r =>
        left
        simp [Upload, h, hdo]
  · cases hdo : doReq "channels.create" [("name", [name])] with
    | error e =>
      right
      simp [ChannelCreate, hdo]
    | ok r =>
      left
      simp [ChannelCreate, hdo]

end Slack
